import Mathlib

/-!
Verification of the CycleGAN-Tensorflow training orchestration code.

The Python sources are shallowly embedded:
* floats are modelled by `ℚ` (the schedule arithmetic is exact on the
  values the claims mention);
* Python float division `/` is `ℚ` division, and float floor-division
  `//` is `Int.floor` of the `ℚ` quotient;
* tensor computations are modelled symbolically by the `Tensor`
  expression type, recording which network or buffer is applied, in
  which mode, and where `tf.stop_gradient` is inserted;
* object attributes that may be unset (Python `AttributeError`) are
  modelled with `Option`;
* fallible operations return `Except String`.
-/

namespace CycleGAN

/-! ## Learning-rate schedule (src/models/cyclegan.py, lines 168-176) -/

/-- Embedding of `global_step.numpy() / 3 // batches_per_epoch` from
`CycleGANModel._get_learning_rate`: true division of the step counter by 3
followed by float floor-division by `batches_per_epoch`. -/
def total_epochs (global_step batches_per_epoch : ℕ) : ℤ :=
  ⌊((global_step : ℚ) / 3) / (batches_per_epoch : ℚ)⌋

/-- Embedding of `CycleGANModel._get_learning_rate`:
`lr * max(0, 1 - max(0, total_epochs - niter) / float(niter_decay + 1))`. -/
def get_learning_rate (lr : ℚ) (niter niter_decay : ℤ)
    (global_step batches_per_epoch : ℕ) : ℚ :=
  let te : ℚ := (total_epochs global_step batches_per_epoch : ℚ)
  let lam : ℚ := 1 - max 0 (te - (niter : ℚ)) / ((niter_decay : ℚ) + 1)
  lr * max 0 lam

/-- Embedding of `CycleGANModel.update_learning_rate`: the value assigned to
the `learning_rate` variable is exactly the value of `_get_learning_rate`. -/
def update_learning_rate (lr : ℚ) (niter niter_decay : ℤ)
    (global_step batches_per_epoch : ℕ) : ℚ :=
  get_learning_rate lr niter niter_decay global_step batches_per_epoch

/-! ## Symbolic tensor expressions

Network forward passes, buffer queries and `tf.stop_gradient` are recorded
symbolically, so that claims about which tensor is fed where, in which mode,
and how gradients can flow are decided structurally. -/

/-- The mode a network call runs in: Keras `training=True`,
`training=False`, or no explicit flag passed at the call site. -/
inductive Mode where
  | training : Mode
  | inference : Mode
  | unspecified : Mode
deriving DecidableEq, Repr

/-- Symbolic tensor expressions: input batches, generator and discriminator
applications (tagged with the call-site mode flag), image-history-buffer
queries, and `tf.stop_gradient`. -/
inductive Tensor where
  | data : String → Tensor
  | genApp : String → Mode → Tensor → Tensor
  | discApp : String → Mode → Tensor → Tensor
  | buffQuery : String → Tensor → Tensor
  | stopGradient : Tensor → Tensor
deriving DecidableEq, Repr

/-- Modelled from the spec: `models/networks.py` (the `Generator` and
`Discriminator` forward passes) is missing from src. Per the spec (section 6)
every network call runs in `training` or `inference` mode; a call made
without an explicit mode flag runs in the mode of the run configured by
`opt.training` (the network objects are constructed from `opt`). -/
def effectiveMode (opt_training : Bool) : Mode → Mode
  | Mode.unspecified => if opt_training then Mode.training else Mode.inference
  | m => m

/-- The four tensors computed by `CycleGANModel.forward`. -/
structure ForwardVals where
  fakeB : Tensor
  reconstructedA : Tensor
  fakeA : Tensor
  reconstructedB : Tensor
deriving DecidableEq, Repr

/-- Embedding of `CycleGANModel.forward` (lines 67-73): all four generator
applications, none passing an explicit mode flag. -/
def CycleGANModel_forward (opt_training : Bool) (dataA dataB : Tensor) :
    ForwardVals :=
  let m := effectiveMode opt_training Mode.unspecified
  let fakeB := Tensor.genApp "genA2B" m dataA
  let reconstructedA := Tensor.genApp "genB2A" m fakeB
  let fakeA := Tensor.genApp "genB2A" m dataB
  let reconstructedB := Tensor.genApp "genA2B" m fakeA
  ⟨fakeB, reconstructedA, fakeA, reconstructedB⟩

/-- The two discriminator outputs computed inside `CycleGANModel.backward_D`;
the discriminator loss is a function of exactly these two tensors. -/
structure DiscPass where
  pred_real : Tensor
  pred_fake : Tensor
deriving DecidableEq, Repr

/-- Embedding of `CycleGANModel.backward_D` (lines 75-79):
`pred_real = netD(real)` and `pred_fake = netD(tf.stop_gradient(fake))`. -/
def backward_D (netD : String) (opt_training : Bool) (real fake : Tensor) :
    DiscPass :=
  let m := effectiveMode opt_training Mode.unspecified
  ⟨Tensor.discApp netD m real,
   Tensor.discApp netD m (Tensor.stopGradient fake)⟩

/-- Embedding of `CycleGANModel.backward_discA` (lines 93-97): queries the
`discA` history buffer on the fresh `fakeA` from `forward` and feeds the
result to `backward_D` for `discA` against the real batch `dataA`. -/
def backward_discA (opt_training : Bool) (dataA dataB : Tensor) : DiscPass :=
  let fake_A := Tensor.buffQuery "discA_buffer"
    (CycleGANModel_forward opt_training dataA dataB).fakeA
  backward_D "discA" opt_training dataA fake_A

/-- Embedding of `CycleGANModel.backward_discB` (lines 99-103). -/
def backward_discB (opt_training : Bool) (dataA dataB : Tensor) : DiscPass :=
  let fake_B := Tensor.buffQuery "discB_buffer"
    (CycleGANModel_forward opt_training dataA dataB).fakeB
  backward_D "discB" opt_training dataB fake_B

/-- Embedding of `CycleGANModel.test` (lines 163-166):
`fakeA = genB2A(dataB)`, `fakeB = genA2B(dataA)` (no explicit mode flag),
returning the list `[dataA, fakeA, dataB, fakeB]`. -/
def CycleGANModel_test (opt_training : Bool) (dataA dataB : Tensor) :
    List Tensor :=
  let fakeA := Tensor.genApp "genB2A" (effectiveMode opt_training Mode.unspecified) dataB
  let fakeB := Tensor.genApp "genA2B" (effectiveMode opt_training Mode.unspecified) dataA
  [dataA, fakeA, dataB, fakeB]

/-- Whether a differentiable path from some generator's parameters reaches
this tensor: generator applications introduce generator parameters,
`tf.stop_gradient` blocks every path through it. -/
def dependsOnGen : Tensor → Bool
  | Tensor.data _ => false
  | Tensor.genApp _ _ _ => true
  | Tensor.discApp _ _ x => dependsOnGen x
  | Tensor.buffQuery _ x => dependsOnGen x
  | Tensor.stopGradient _ => false

/-- Whether the named network or buffer occurs anywhere in the expression. -/
def usesName (n : String) : Tensor → Bool
  | Tensor.data _ => false
  | Tensor.genApp g _ x => g == n || usesName n x
  | Tensor.discApp d _ x => d == n || usesName n x
  | Tensor.buffQuery b x => b == n || usesName n x
  | Tensor.stopGradient x => usesName n x

/-- Whether a discriminator-output tensor was produced by feeding the
discriminator a history-buffer query result (possibly behind
`tf.stop_gradient`), as the claim about the discriminator step requires. -/
def fedThroughBuffer : Tensor → Bool
  | Tensor.discApp _ _ (Tensor.buffQuery _ _) => true
  | Tensor.discApp _ _ (Tensor.stopGradient (Tensor.buffQuery _ _)) => true
  | _ => false

/-! ## Legacy training step (src/cyclegan.py, `train`, lines 208-230) -/

/-- The tensors computed inside the legacy `train` gradient tape. -/
structure TrainTapeVals where
  genA2B_output : Tensor
  genB2A_output : Tensor
  discA_real_output : Tensor
  discB_real_output : Tensor
  discA_fake_output : Tensor
  discB_fake_output : Tensor
  reconstructedA : Tensor
  reconstructedB : Tensor
deriving DecidableEq, Repr

/-- Embedding of the tape body of `train` in src/cyclegan.py (lines
208-224): note that the history-buffer `query` is applied to the
discriminator output score maps `discA(genB2A_output)` and
`discB(genA2B_output)`, after the discriminators have already been fed the
raw generator outputs, and no `tf.stop_gradient` is used. -/
def train_step_tape (trainA trainB : Tensor) : TrainTapeVals :=
  let genA2B_output := Tensor.genApp "genA2B" Mode.training trainA
  let genB2A_output := Tensor.genApp "genB2A" Mode.training trainB
  let discA_real_output := Tensor.discApp "discA" Mode.training trainA
  let discB_real_output := Tensor.discApp "discB" Mode.training trainB
  let discA_fake_output := Tensor.buffQuery "discA_buffer"
    (Tensor.discApp "discA" Mode.training genB2A_output)
  let discB_fake_output := Tensor.buffQuery "discB_buffer"
    (Tensor.discApp "discB" Mode.training genA2B_output)
  let reconstructedA := Tensor.genApp "genB2A" Mode.training genA2B_output
  let reconstructedB := Tensor.genApp "genA2B" Mode.training genB2A_output
  ⟨genA2B_output, genB2A_output, discA_real_output, discB_real_output,
   discA_fake_output, discB_fake_output, reconstructedA, reconstructedB⟩

/-- The four `apply_gradients` calls of the legacy `train` step (lines
232-240), as pairs of the loss differentiated and the variable set the
gradients are applied to. -/
def train_step_applies : List (String × String) :=
  [("discA_loss", "discA"), ("discB_loss", "discB"),
   ("genA2B_loss", "genA2B"), ("genB2A_loss", "genB2A")]

/-! ## Generator backward pass (src/models/cyclegan.py, `backward_G`) -/

/-- The identity-loss attributes of the model object; `none` models a Python
attribute that has never been assigned (reading it raises
`AttributeError`). -/
structure GenLossAttrs where
  id_lossA : Option ℚ
  id_lossB : Option ℚ
deriving DecidableEq, Repr

/-- Embedding of `CycleGANModel.backward_G` (lines 105-122). The scalar
values of the loss primitives (which live in `models/losses.py`, missing
from src) are taken as parameters: `id_raw_A = identity_loss(dataA,
genB2A(dataA))`, `cyc_raw_A = cycle_loss(dataA, reconstructedA)`, etc.
Faithful to the source: when `identity_lambda > 0` the attributes
`self.id_lossA` / `self.id_lossB` are assigned; otherwise only the local
variables `id_lossA, id_lossB = 0, 0` are assigned and the attributes are
left untouched. The returned total reads `self.id_lossA + self.id_lossB`,
which is `none` (an `AttributeError`) if the attributes were never set. -/
def backward_G (identity_lambda cyc_lambda : ℚ)
    (id_raw_A id_raw_B genA2B_loss genB2A_loss cyc_raw_A cyc_raw_B : ℚ)
    (s : GenLossAttrs) : Option (ℚ × GenLossAttrs) :=
  let s1 : GenLossAttrs :=
    if identity_lambda > 0 then
      { id_lossA := some (id_raw_A * cyc_lambda * identity_lambda),
        id_lossB := some (id_raw_B * cyc_lambda * identity_lambda) }
    else s
  let cyc_lossA := cyc_raw_A * cyc_lambda
  let cyc_lossB := cyc_raw_B * cyc_lambda
  match s1.id_lossA, s1.id_lossB with
  | some a, some b =>
      some (genA2B_loss + genB2A_loss + cyc_lossA + cyc_lossB + a + b, s1)
  | _, _ => none

/-! ## Optimizer step bookkeeping
(src/models/cyclegan.py, `optimize_parameters`, lines 124-156) -/

/-- The state `optimize_parameters` manipulates: the per-layer `trainable`
flags of the two discriminators, the ordered log of optimizer applications
(optimizer name and the variable sets it updates), and the shared global
step counter. -/
structure OptimState where
  discA_layers : List Bool
  discB_layers : List Bool
  applied : List (String × List String)
  global_step : ℕ
deriving DecidableEq, Repr

/-- Embedding of the loops `for net in (discA, discB): for layer in
net.layers: layer.trainable = v` (lines 125-127 and 141-143). -/
def set_discs_trainable (v : Bool) (s : OptimState) : OptimState :=
  { s with discA_layers := s.discA_layers.map (fun _ => v),
           discB_layers := s.discB_layers.map (fun _ => v) }

/-- Embedding of one `optimizer.apply_gradients(..., global_step=...)`
call: logs which optimizer updated which variable sets and increments the
shared global step by one. -/
def apply_gradients (optim : String) (vars : List String) (s : OptimState) :
    OptimState :=
  { s with applied := s.applied ++ [(optim, vars)],
           global_step := s.global_step + 1 }

/-- The generator phase gradient application (lines 129-139): one
`gen_optim.apply_gradients` over the concatenated variable lists of both
generators. -/
def gen_step (s : OptimState) : OptimState :=
  apply_gradients "gen_optim" ["genA2B", "genB2A"] s

/-- The discriminator phase gradient applications (lines 145-156): two
`disc_optim.apply_gradients` calls, one per discriminator. -/
def disc_step (s : OptimState) : OptimState :=
  apply_gradients "disc_optim" ["discB"]
    (apply_gradients "disc_optim" ["discA"] s)

/-- Embedding of `CycleGANModel.optimize_parameters` (lines 124-156):
freeze both discriminators, generator step, unfreeze both discriminators,
discriminator step. -/
def optimize_parameters (s : OptimState) : OptimState :=
  disc_step (set_discs_trainable true (gen_step (set_discs_trainable false s)))

/-! ## Checkpoint coverage and restore
(src/models/cyclegan.py, lines 36-60) -/

/-- Embedding of `CycleGANModel.initialize_checkpoint` (lines 36-48): the
keyword arguments, i.e. the objects covered by the `tf.train.Checkpoint`,
in training mode and in inference-only mode. -/
def initialize_checkpoint (training : Bool) : List String :=
  if training then
    ["discA", "discB", "genA2B", "genB2A",
     "disc_optim", "gen_optim", "learning_rate", "global_step"]
  else
    ["genA2B", "genB2A"]

/-- A saved checkpoint: the tensor shapes it stores and the parameter
values it would restore. -/
structure Ckpt where
  shapes : List ℕ
  params : List ℚ
deriving DecidableEq, Repr

/-- Modelled from the spec:
`tf.train.Checkpoint.restore(...).assert_existing_objects_matched()` lives
in TensorFlow, outside src. Per the spec (sections 4.4 and 7) and the
comment at src/models/cyclegan.py lines 54-56, it throws an exception if
the checkpoint does not restore the model weights (tensor shapes that do
not match the constructed networks), instead of a silent partial restore;
on a match it replaces the model parameters with the stored ones. -/
def assert_existing_objects_matched (c : Ckpt) (netShapes : List ℕ) :
    Except String (List ℚ) :=
  if c.shapes = netShapes then Except.ok c.params
  else Except.error "Restore error: checkpoint does not match model objects"

/-- Embedding of `CycleGANModel.restore_checkpoint` (lines 50-60). `latest`
is `tf.train.latest_checkpoint` (`none` when no checkpoint file exists).
Returns the log message printed and the resulting model parameters, or the
propagated restore exception. -/
def restore_checkpoint (training load_checkpoint : Bool)
    (latest : Option Ckpt) (netShapes : List ℕ) (params : List ℚ) :
    Except String (String × List ℚ) :=
  if ((!training || load_checkpoint) && latest.isSome) then
    match latest with
    | some c =>
        (assert_existing_objects_matched c netShapes).map
          (fun p => ("Checkpoint restored from latest", p))
    | none => Except.ok ("Failed to restore checkpoint, initializing model.", params)
  else
    Except.ok ("Failed to restore checkpoint, initializing model.", params)

/-! ## Startup option parsing (src/utils/options.py) -/

/-- The command-line values supplied for the training flags the error
handling claim is about (`none` means the flag was not passed); argparse
type conversion of the raw strings is done by the library before these
values exist. -/
structure ProvidedTrainArgs where
  data_dir : Option String
  save_dir : Option String
  gan_mode : Option String
  buffer_size : Option Int
  niter : Option Int
  niter_decay : Option Int
  lr : Option ℚ
  cyc_lambda : Option ℚ
  identity_lambda : Option ℚ
deriving DecidableEq, Repr

/-- The parsed training options relevant to the configuration claims. -/
structure TrainOptions where
  data_dir : String
  save_dir : String
  gan_mode : String
  buffer_size : Int
  niter : Int
  niter_decay : Int
  lr : ℚ
  cyc_lambda : ℚ
  identity_lambda : ℚ
deriving DecidableEq, Repr

/-- Embedding of `Options.parse` for training (src/utils/options.py, lines
31-40 and 54-71): argparse rejects a missing required `data_dir` or
`save_dir`; every other flag is filled from the supplied value or its
declared default (`gan_mode` default `lsgan`, `buffer_size` 50, `niter`
100, `niter_decay` 100, `lr` 0.0002, `cyc_lambda` 10, `identity_lambda`
0.5). No argument value is validated beyond argparse type conversion. -/
def Options_parse_train (a : ProvidedTrainArgs) : Except String TrainOptions :=
  match a.data_dir with
  | none => Except.error "the following arguments are required: data_dir"
  | some dd =>
    match a.save_dir with
    | none => Except.error "the following arguments are required: save_dir"
    | some sd =>
      Except.ok
        { data_dir := dd
          save_dir := sd
          gan_mode := a.gan_mode.getD "lsgan"
          buffer_size := a.buffer_size.getD 50
          niter := a.niter.getD 100
          niter_decay := a.niter_decay.getD 100
          lr := a.lr.getD (2 / 10000)
          cyc_lambda := a.cyc_lambda.getD 10
          identity_lambda := a.identity_lambda.getD (1 / 2) }

/-! ## Theorems -/

/-- Helper: the float floor-division chain `gs / 3 // b` equals natural
division of the step count by `3 * b`. -/
theorem total_epochs_eq_div (gs b : ℕ) (hb : 1 ≤ b) :
    total_epochs gs b = ((gs / (3 * b) : ℕ) : ℤ) := by
  unfold total_epochs
  have h1 : ((gs : ℚ) / 3) / (b : ℚ) = (gs : ℚ) / ((3 * b : ℕ) : ℚ) := by
    push_cast
    rw [div_div]
  rw [h1]
  have h0 : (0 : ℚ) ≤ (gs : ℚ) / ((3 * b : ℕ) : ℚ) := by positivity
  rw [← Int.natCast_floor_eq_floor h0, Nat.floor_div_eq_div]

/-- Helper: with `b` batches per epoch, a global step of `3 * b * e`
(i.e. `e` completed epochs of three optimizer applications per batch)
yields epoch number `e` in the schedule. -/
theorem total_epochs_at_epoch (e b : ℕ) (hb : 1 ≤ b) :
    total_epochs (3 * b * e) b = (e : ℤ) := by
  rw [total_epochs_eq_div _ _ hb]
  norm_cast
  exact Nat.mul_div_cancel_left e (by positivity)

/-- C1 counterexample: with `lr = 0.0002 = 1/5000`, `niter = 100`,
`niter_decay = 100` and one batch per epoch, at epoch 200 (global step 600)
the schedule yields `0.0002 / 101 ≠ 0`, so the rate does not reach 0 at
epoch 200 and is not 0 for every epoch ≥ 200. -/
theorem C1_lr_schedule_counterexample :
    get_learning_rate (1 / 5000) 100 100 600 1 = 1 / 505000 ∧
    (1 / 505000 : ℚ) ≠ 0 := by
  constructor
  · norm_num [get_learning_rate, total_epochs]
  · norm_num

/-- C1 (amended): with `lr = 0.0002`, `niter = 100`, `niter_decay = 100`
and `b ≥ 1` batches per epoch, the schedule holds the rate at `0.0002`
for epochs `0..100`, decreases it linearly (by `0.0002/101` per epoch)
for epochs `100..201` reaching exactly 0 at epoch 201, and clamps it at 0
for every epoch ≥ 201. -/
theorem C1_lr_schedule_amended (e b : ℕ) (hb : 1 ≤ b) :
    (e ≤ 100 → get_learning_rate (1 / 5000) 100 100 (3 * b * e) b = 1 / 5000) ∧
    (100 ≤ e → e ≤ 201 →
      get_learning_rate (1 / 5000) 100 100 (3 * b * e) b =
        (1 / 5000) * ((201 - (e : ℚ)) / 101)) ∧
    (201 ≤ e → get_learning_rate (1 / 5000) 100 100 (3 * b * e) b = 0) := by
  unfold get_learning_rate
  rw [total_epochs_at_epoch e b hb]
  dsimp only
  refine ⟨fun h1 => ?_, fun h2 h3 => ?_, fun h4 => ?_⟩
  · have hc : ((e : ℤ) : ℚ) - ((100 : ℤ) : ℚ) ≤ 0 := by
      push_cast
      have : (e : ℚ) ≤ 100 := by exact_mod_cast h1
      linarith
    rw [max_eq_left hc]
    norm_num
  · have hc : (0 : ℚ) ≤ ((e : ℤ) : ℚ) - ((100 : ℤ) : ℚ) := by
      push_cast
      have : (100 : ℚ) ≤ (e : ℚ) := by exact_mod_cast h2
      linarith
    rw [max_eq_right hc]
    have he : (e : ℚ) ≤ 201 := by exact_mod_cast h3
    have hlam : (0 : ℚ) ≤
        1 - (((e : ℤ) : ℚ) - ((100 : ℤ) : ℚ)) / (((100 : ℤ) : ℚ) + 1) := by
      push_cast
      linarith
    rw [max_eq_right hlam]
    push_cast
    ring
  · have h2 : (100 : ℕ) ≤ e := by omega
    have hc : (0 : ℚ) ≤ ((e : ℤ) : ℚ) - ((100 : ℤ) : ℚ) := by
      push_cast
      have : (100 : ℚ) ≤ (e : ℚ) := by exact_mod_cast h2
      linarith
    rw [max_eq_right hc]
    have he : (201 : ℚ) ≤ (e : ℚ) := by exact_mod_cast h4
    have hlam :
        1 - (((e : ℤ) : ℚ) - ((100 : ℤ) : ℚ)) / (((100 : ℤ) : ℚ) + 1) ≤ 0 := by
      push_cast
      linarith
    rw [max_eq_left hlam]
    norm_num

/-- C1 witness: the amended schedule evaluated at epoch 150 with one batch
per epoch. -/
theorem C1_lr_schedule_amended_witness :
    (1 : ℕ) ≤ 1 ∧ (100 : ℕ) ≤ 150 ∧ (150 : ℕ) ≤ 201 ∧
    get_learning_rate (1 / 5000) 100 100 (3 * 1 * 150) 1 =
      (1 / 5000) * ((201 - (150 : ℚ)) / 101) :=
  ⟨le_refl 1, by norm_num, by norm_num,
   (C1_lr_schedule_amended 150 1 (le_refl 1)).2.1 (by norm_num) (by norm_num)⟩

/-- C10: for every step count, every `b ≥ 1` batches per epoch and every
configuration with `niter ≥ 0`, `niter_decay ≥ 0`, `lr ≥ 0`, the value
assigned by `update_learning_rate` lies between 0 and the configured
initial rate. -/
theorem C10_lr_bounds (lr : ℚ) (niter niter_decay : ℤ) (gs b : ℕ)
    (hlr : 0 ≤ lr) (_hn : 0 ≤ niter) (hd : 0 ≤ niter_decay) (_hb : 1 ≤ b) :
    0 ≤ update_learning_rate lr niter niter_decay gs b ∧
    update_learning_rate lr niter niter_decay gs b ≤ lr := by
  unfold update_learning_rate get_learning_rate
  dsimp only
  set te : ℚ := (total_epochs gs b : ℚ) with hte
  have hden : (0 : ℚ) < (niter_decay : ℚ) + 1 := by
    have : (0 : ℚ) ≤ (niter_decay : ℚ) := by exact_mod_cast hd
    linarith
  have hq : (0 : ℚ) ≤ max 0 (te - (niter : ℚ)) / ((niter_decay : ℚ) + 1) :=
    div_nonneg (le_max_left _ _) (le_of_lt hden)
  have hm0 : (0 : ℚ) ≤
      max 0 (1 - max 0 (te - (niter : ℚ)) / ((niter_decay : ℚ) + 1)) :=
    le_max_left _ _
  have hm1 : max 0 (1 - max 0 (te - (niter : ℚ)) / ((niter_decay : ℚ) + 1)) ≤ 1 :=
    max_le (by norm_num) (by linarith)
  exact ⟨mul_nonneg hlr hm0, by
    calc lr * max 0 (1 - max 0 (te - (niter : ℚ)) / ((niter_decay : ℚ) + 1))
        ≤ lr * 1 := mul_le_mul_of_nonneg_left hm1 hlr
      _ = lr := mul_one lr⟩

/-- C10 witness: the bounds at the default configuration and step 0. -/
theorem C10_lr_bounds_witness :
    (0 : ℚ) ≤ 1 / 5000 ∧ (0 : ℤ) ≤ 100 ∧ (0 : ℤ) ≤ 100 ∧ (1 : ℕ) ≤ 1 ∧
    0 ≤ update_learning_rate (1 / 5000) 100 100 0 1 ∧
    update_learning_rate (1 / 5000) 100 100 0 1 ≤ 1 / 5000 := by
  refine ⟨by norm_num, by norm_num, by norm_num, le_refl 1, ?_, ?_⟩
  · exact (C10_lr_bounds (1 / 5000) 100 100 0 1 (by norm_num) (by norm_num)
      (by norm_num) (le_refl 1)).1
  · exact (C10_lr_bounds (1 / 5000) 100 100 0 1 (by norm_num) (by norm_num)
      (by norm_num) (le_refl 1)).2

/-- C2: evaluating the code at the failing input. On a freshly constructed
model (identity-loss attributes never assigned) with `identity_lambda = 0`,
`backward_G` does not return a total generator loss: the else branch binds
only the local variables `id_lossA, id_lossB = 0, 0`, while the total reads
the never-assigned attributes `self.id_lossA`/`self.id_lossB`, an
`AttributeError` (modelled `none`), for any values of the other losses. -/
theorem C2_backward_G_attribute_error :
    backward_G 0 10 3 4 5 6 7 8 ⟨none, none⟩ = none := rfl

/-- C3 counterexample: in the legacy `train` step (src/cyclegan.py), on the
concrete batches `trainA`, `trainB`, the tensor on `discA`'s fake branch is
the history-buffer query of the discriminator OUTPUT score map
`discA(genB2A(trainB))`: the discriminator itself is fed the raw fresh
fakes, not a buffer query result, and the branch is differentiable into the
generator (no `tf.stop_gradient`). -/
theorem C3_disc_step_counterexample :
    (train_step_tape (Tensor.data "trainA") (Tensor.data "trainB")).discA_fake_output
      = Tensor.buffQuery "discA_buffer"
          (Tensor.discApp "discA" Mode.training
            (Tensor.genApp "genB2A" Mode.training (Tensor.data "trainB"))) ∧
    fedThroughBuffer
      (train_step_tape (Tensor.data "trainA") (Tensor.data "trainB")).discA_fake_output
      = false ∧
    dependsOnGen
      (train_step_tape (Tensor.data "trainA") (Tensor.data "trainB")).discA_fake_output
      = true := by
  refine ⟨rfl, rfl, rfl⟩

/-- C3 (amended): in `CycleGANModel`'s discriminator step the claim holds:
each discriminator's fake input is `tf.stop_gradient` of its own history
buffer's query on the corresponding fresh fake batch, the two
discriminator passes are independent (neither mentions the other
discriminator or its buffer), and no gradient from either discriminator
loss can flow into a generator parameter (both loss inputs are
gradient-blocked). In the legacy `train` script, instead, the buffer query
is applied to the discriminator output score map, the discriminator is fed
the raw fresh fakes, and discriminator-loss gradients are nevertheless
applied only to that discriminator's own variables. -/
theorem C3_disc_step_amended (a b : String) (tr : Bool) :
    (backward_discA tr (Tensor.data a) (Tensor.data b)).pred_fake
      = Tensor.discApp "discA" (effectiveMode tr Mode.unspecified)
          (Tensor.stopGradient (Tensor.buffQuery "discA_buffer"
            (Tensor.genApp "genB2A" (effectiveMode tr Mode.unspecified)
              (Tensor.data b)))) ∧
    (backward_discB tr (Tensor.data a) (Tensor.data b)).pred_fake
      = Tensor.discApp "discB" (effectiveMode tr Mode.unspecified)
          (Tensor.stopGradient (Tensor.buffQuery "discB_buffer"
            (Tensor.genApp "genA2B" (effectiveMode tr Mode.unspecified)
              (Tensor.data a)))) ∧
    fedThroughBuffer (backward_discA tr (Tensor.data a) (Tensor.data b)).pred_fake
      = true ∧
    fedThroughBuffer (backward_discB tr (Tensor.data a) (Tensor.data b)).pred_fake
      = true ∧
    dependsOnGen (backward_discA tr (Tensor.data a) (Tensor.data b)).pred_fake
      = false ∧
    dependsOnGen (backward_discA tr (Tensor.data a) (Tensor.data b)).pred_real
      = false ∧
    dependsOnGen (backward_discB tr (Tensor.data a) (Tensor.data b)).pred_fake
      = false ∧
    dependsOnGen (backward_discB tr (Tensor.data a) (Tensor.data b)).pred_real
      = false ∧
    usesName "discB" (backward_discA tr (Tensor.data a) (Tensor.data b)).pred_fake
      = false ∧
    usesName "discB" (backward_discA tr (Tensor.data a) (Tensor.data b)).pred_real
      = false ∧
    usesName "discA" (backward_discB tr (Tensor.data a) (Tensor.data b)).pred_fake
      = false ∧
    usesName "discA" (backward_discB tr (Tensor.data a) (Tensor.data b)).pred_real
      = false ∧
    (train_step_tape (Tensor.data a) (Tensor.data b)).discA_fake_output
      = Tensor.buffQuery "discA_buffer"
          (Tensor.discApp "discA" Mode.training
            (Tensor.genApp "genB2A" Mode.training (Tensor.data b))) ∧
    (train_step_tape (Tensor.data a) (Tensor.data b)).discB_fake_output
      = Tensor.buffQuery "discB_buffer"
          (Tensor.discApp "discB" Mode.training
            (Tensor.genApp "genA2B" Mode.training (Tensor.data a))) ∧
    (train_step_applies.all (fun p =>
        (p.1 != "discA_loss" || p.2 == "discA") &&
        (p.1 != "discB_loss" || p.2 == "discB"))) = true := by
  refine ⟨rfl, rfl, rfl, rfl, ?_, ?_, ?_, ?_, ?_, ?_, ?_, ?_, rfl, rfl, rfl⟩ <;>
    simp [backward_discA, backward_discB, backward_D, CycleGANModel_forward,
      dependsOnGen, usesName]

/-- C4: `optimize_parameters` freezes every discriminator layer before the
generator step, the generator-step optimizer application targets only the
two generators (no discriminator variable set), the discriminator layers
stay frozen throughout the generator step, they are all restored to
trainable before the discriminator step, and after one full call every
discriminator layer is trainable again. -/
theorem C4_freeze_unfreeze (s : OptimState) :
    ((set_discs_trainable false s).discA_layers.all (fun x => !x) = true ∧
     (set_discs_trainable false s).discB_layers.all (fun x => !x) = true) ∧
    ((gen_step (set_discs_trainable false s)).discA_layers.all (fun x => !x) = true ∧
     (gen_step (set_discs_trainable false s)).discB_layers.all (fun x => !x) = true) ∧
    (gen_step (set_discs_trainable false s)).applied =
      s.applied ++ [("gen_optim", ["genA2B", "genB2A"])] ∧
    ((["genA2B", "genB2A"] : List String).contains "discA" = false ∧
     (["genA2B", "genB2A"] : List String).contains "discB" = false) ∧
    ((set_discs_trainable true (gen_step (set_discs_trainable false s))).discA_layers.all
        (fun x => x) = true ∧
     (set_discs_trainable true (gen_step (set_discs_trainable false s))).discB_layers.all
        (fun x => x) = true) ∧
    ((optimize_parameters s).discA_layers.all (fun x => x) = true ∧
     (optimize_parameters s).discB_layers.all (fun x => x) = true) := by
  simp [set_discs_trainable, gen_step, disc_step, apply_gradients,
    optimize_parameters, List.all_eq_true]

/-- C5: every embedded optimizer application increments the shared global
step by exactly one; one full `optimize_parameters` call performs exactly
three applications (one generator, two discriminator) and increments the
global step by exactly 3; and with `b ≥ 1` batches per epoch the epoch
number used by the schedule equals `⌊global_step / 3 / b⌋ = global_step / (3 * b)`. -/
theorem C5_global_step (s : OptimState) (o : String) (v : List String)
    (gs b : ℕ) (hb : 1 ≤ b) :
    (apply_gradients o v s).global_step = s.global_step + 1 ∧
    s.global_step < (apply_gradients o v s).global_step ∧
    (optimize_parameters s).global_step = s.global_step + 3 ∧
    (optimize_parameters s).applied.length = s.applied.length + 3 ∧
    total_epochs gs b = ((gs / (3 * b) : ℕ) : ℤ) := by
  refine ⟨rfl, by simp [apply_gradients], ?_, ?_, total_epochs_eq_div gs b hb⟩
  · simp [optimize_parameters, disc_step, gen_step, apply_gradients,
      set_discs_trainable]
  · simp [optimize_parameters, disc_step, gen_step, apply_gradients,
      set_discs_trainable]

/-- C5 witness: the increment and epoch formula at a concrete state and
step count. -/
theorem C5_global_step_witness :
    (1 : ℕ) ≤ 1 ∧
    (optimize_parameters ⟨[true], [true], [], 0⟩).global_step = 0 + 3 ∧
    total_epochs 6 1 = ((6 / (3 * 1) : ℕ) : ℤ) :=
  ⟨le_refl 1,
   (C5_global_step ⟨[true], [true], [], 0⟩ "x" [] 6 1 (le_refl 1)).2.2.1,
   (C5_global_step ⟨[true], [true], [], 0⟩ "x" [] 6 1 (le_refl 1)).2.2.2.2⟩

/-- C6: when a restore is requested (`not training or load_checkpoint`) and
a checkpoint exists whose tensor shapes do not match the constructed
networks, `restore_checkpoint` propagates the explicit restore error (no
silent partial restore); when no checkpoint file exists it does not raise,
returns the model parameters unchanged, and logs a message distinct from
the successful-restore message. -/
theorem C6_restore_error_handling (c : Ckpt) (net : List ℕ) (params : List ℚ)
    (tr lc : Bool) (hcond : (!tr || lc) = true) (hmis : c.shapes ≠ net) :
    restore_checkpoint tr lc (some c) net params =
      Except.error "Restore error: checkpoint does not match model objects" ∧
    restore_checkpoint tr lc none net params =
      Except.ok ("Failed to restore checkpoint, initializing model.", params) ∧
    "Failed to restore checkpoint, initializing model."
      ≠ "Checkpoint restored from latest" := by
  refine ⟨?_, ?_, by decide⟩
  · simp [restore_checkpoint, hcond, assert_existing_objects_matched, hmis,
      Except.map]
  · simp [restore_checkpoint]

/-- C6 witness: a shape-mismatched checkpoint at a concrete model. -/
theorem C6_restore_error_handling_witness :
    (!true || true) = true ∧ (Ckpt.mk [3] [1/2]).shapes ≠ ([4] : List ℕ) ∧
    restore_checkpoint true true (some ⟨[3], [1/2]⟩) [4] [0] =
      Except.error "Restore error: checkpoint does not match model objects" :=
  ⟨rfl, by decide,
   (C6_restore_error_handling ⟨[3], [1/2]⟩ [4] [0] true true rfl (by decide)).1⟩

/-- C7: in inference-only mode the checkpoint covers exactly the two
generators and nothing else (no discriminator, optimizer, learning rate or
global step); in training mode it covers all four networks, both
optimizers, the learning rate and the global step. -/
theorem C7_checkpoint_coverage :
    initialize_checkpoint false = ["genA2B", "genB2A"] ∧
    (initialize_checkpoint false).contains "discA" = false ∧
    (initialize_checkpoint false).contains "discB" = false ∧
    (initialize_checkpoint false).contains "disc_optim" = false ∧
    (initialize_checkpoint false).contains "gen_optim" = false ∧
    (initialize_checkpoint false).contains "learning_rate" = false ∧
    (initialize_checkpoint false).contains "global_step" = false ∧
    initialize_checkpoint true =
      ["discA", "discB", "genA2B", "genB2A",
       "disc_optim", "gen_optim", "learning_rate", "global_step"] := by
  refine ⟨rfl, rfl, rfl, rfl, rfl, rfl, rfl, rfl⟩

/-- C8: on a model constructed with training mode off, `test` computes
exactly `fakeA = genB2A(dataB)` and `fakeB = genA2B(dataA)`, both
generator applications running in inference mode, and returns exactly the
four tensors `[dataA, fakeA, dataB, fakeB]` in that order. -/
theorem C8_test_forward (dataA dataB : Tensor) :
    CycleGANModel_test false dataA dataB =
      [dataA,
       Tensor.genApp "genB2A" Mode.inference dataB,
       dataB,
       Tensor.genApp "genA2B" Mode.inference dataA] := rfl

/-- C9 counterexample: a training configuration with the unsupported
`gan_mode` value `foo`, the non-positive buffer capacity `-5`, `niter = 0`
and `niter_decay = 0` is accepted by startup parsing (it returns the parsed
options rather than an error): no validation of these values exists. -/
theorem C9_options_counterexample :
    Options_parse_train
      ⟨some "d", some "s", some "foo", some (-5), some 0, some 0,
       some (1 / 5000), some 10, some 0⟩ =
      Except.ok ⟨"d", "s", "foo", -5, 0, 0, 1 / 5000, 10, 0⟩ := rfl

/-- C9 (amended): startup parsing validates nothing beyond argparse itself
(required `data_dir`/`save_dir`, integer conversion): every supplied
`gan_mode` string and all integer values of `buffer_size`, `niter` and
`niter_decay` — including non-positive ones — are accepted verbatim, and
the run proceeds to allocate tensors with them. -/
theorem C9_options_no_validation (dd sd gm : String) (bs ni nd : Int)
    (lr cl il : ℚ) :
    Options_parse_train
      ⟨some dd, some sd, some gm, some bs, some ni, some nd,
       some lr, some cl, some il⟩ =
      Except.ok ⟨dd, sd, gm, bs, ni, nd, lr, cl, il⟩ := rfl

end CycleGAN
